import Mathlib

/-!
Shallow embedding of `src/lttng-context-callstack.c` (LTTng callstack event
context) and proofs about its measure/record two-phase emission protocol,
its per-CPU slot selection, its user-stack reentrancy guard, and its
context-attachment error handling.

Machine-dependent quantities (word size, alignments) are kept parametric in
an `Arch` record; `arch64` instantiates them for an LP64 host.
-/

/-- Compile-time constant `MAX_ENTRIES` from the C file: capacity of one
capture slot, in machine words. -/
def MAX_ENTRIES : Nat := 128

/-- Ring-buffer nesting limit `RING_BUFFER_MAX_NESTING` (value 4, from the
ring-buffer headers; the spec fixes `MAX_NESTING = 4`). -/
def RING_BUFFER_MAX_NESTING : Nat := 4

/-- Machine parameters of the host: `sizeof(unsigned long)` and the
`lttng_alignof` values for `unsigned int` and `unsigned long`, in bytes. -/
structure Arch where
  wordSize : Nat
  uintAlign : Nat
  wordAlign : Nat
deriving DecidableEq

/-- `sizeof(unsigned int)`: 4 bytes on every architecture the module builds
for (the ILP32 and LP64 Linux data models). -/
def sizeof_unsigned_int : Nat := 4

/-- An LP64 host (64-bit Linux): 8-byte words, 4-byte `unsigned int`
alignment, 8-byte `unsigned long` alignment. -/
def arch64 : Arch := ⟨8, 4, 8⟩

/-- `ULONG_MAX`: the maximum machine-word value, `2 ^ (8 * wordSize) - 1`. -/
def ULONG_MAX (arch : Arch) : Nat := 2 ^ (8 * arch.wordSize) - 1

/-- `lib_ring_buffer_align(offset, align)`: number of padding bytes needed to
bring `offset` up to a multiple of `align` (the C `offset_align` macro,
`(-offset) & (align - 1)` for a power-of-two `align`). -/
def lib_ring_buffer_align (offset align : Nat) : Nat :=
  (align - offset % align) % align

/-- The two variants of `enum lttng_cs_ctx_modes` used on the hot path. -/
inductive CallstackMode
  | CALLSTACK_KERNEL
  | CALLSTACK_USER
deriving DecidableEq

/-- `struct stack_trace` as used by one capture slot: the `entries` word
buffer (modelled as a total function from index to word value), the filled
length `nr_entries`, and the capacity `max_entries`. -/
structure StackTrace where
  entries : Nat → Nat
  nr_entries : Nat
  max_entries : Nat

/-- Per-CPU hot-path state: the `callstack_user_nesting` guard counter (a C
`int`) and the `dispatch` array of capture slots, indexed by buffer nesting
level.  The index type is `Int` because the C computes the index as
`lib_ring_buffer_nesting - 1` in signed arithmetic; only indices in
`[0, RING_BUFFER_MAX_NESTING)` are ever selected. -/
structure CpuState where
  callstack_user_nesting : Int
  dispatch : Int → StackTrace

/-- `stack_trace_context(field, ctx)`: slot selection.  Returns the dispatch
index of the chosen slot, or `none` when capture must be skipped: either the
field is in user mode and the reentrancy guard is at least 1, or the
ring-buffer nesting depth `d` gives `d - 1 ≥ RING_BUFFER_MAX_NESTING`. -/
def stack_trace_context (mode : CallstackMode) (user_nesting d : Int) :
    Option Int :=
  if mode = .CALLSTACK_USER ∧ user_nesting ≥ 1 then none
  else if d - 1 ≥ (RING_BUFFER_MAX_NESTING : Int) then none
  else some (d - 1)

/-- Value of the user-nesting guard while the unwinder runs inside
`lttng_callstack_get_size`: incremented for user mode, untouched for kernel
mode. -/
def callstack_user_nesting_during (mode : CallstackMode) (n : Int) : Int :=
  if mode = .CALLSTACK_USER then n + 1 else n

/-- The sentinel-normalization step of `lttng_callstack_get_size`: if the
trace is nonempty and its last entry is `ULONG_MAX`, drop that final
delimiter. -/
def stripDelim (arch : Arch) (t : StackTrace) : StackTrace :=
  if 0 < t.nr_entries ∧ t.entries (t.nr_entries - 1) = ULONG_MAX arch then
    { t with nr_entries := t.nr_entries - 1 }
  else t

/-- Result of `lttng_callstack_get_size`: the byte count returned to the
ring buffer, and the per-CPU state after the call (slot contents and guard
counter). -/
structure GetSizeResult where
  size : Nat
  state : CpuState

/-- `lttng_callstack_get_size(offset, field, ctx, chan)`: the measure
operation.  `save` is the late-bound unwinder (`save_stack_trace` or
`save_stack_trace_user`), modelled as a function from the reset slot to the
filled slot; `d` is the per-CPU `lib_ring_buffer_nesting` value.  On the
skip branch the size of an empty sequence is returned and no state changes;
otherwise the slot is reset, the unwinder fills it (bracketed by the guard
increment/decrement in user mode), the final `ULONG_MAX` delimiter is
stripped, and the serialized size is computed, including one extra word for
the truncation marker exactly when the slot is full. -/
def lttng_callstack_get_size (arch : Arch) (save : StackTrace → StackTrace)
    (mode : CallstackMode) (d : Int) (st : CpuState) (offset : Nat) :
    GetSizeResult :=
  match stack_trace_context mode st.callstack_user_nesting d with
  | none =>
      let o1 := offset + lib_ring_buffer_align offset arch.uintAlign
      let o2 := o1 + sizeof_unsigned_int
      let o3 := o2 + lib_ring_buffer_align o2 arch.wordAlign
      { size := o3 - offset, state := st }
  | some idx =>
      let trace0 := st.dispatch idx
      let trace1 : StackTrace := { trace0 with nr_entries := 0 }
      let nDuring := callstack_user_nesting_during mode st.callstack_user_nesting
      let trace2 := save trace1
      let nAfter := if mode = .CALLSTACK_USER then nDuring - 1 else nDuring
      let trace3 := stripDelim arch trace2
      let o1 := offset + lib_ring_buffer_align offset arch.uintAlign
      let o2 := o1 + sizeof_unsigned_int
      let o3 := o2 + lib_ring_buffer_align o2 arch.wordAlign
      let o4 := o3 + arch.wordSize * trace3.nr_entries
      let o5 := if trace3.nr_entries = trace3.max_entries then
                  o4 + arch.wordSize else o4
      { size := o5 - offset,
        state :=
          { callstack_user_nesting := nAfter,
            dispatch := fun j => if j = idx then trace3 else st.dispatch j } }

/-- One item of the wire output of `lttng_callstack_record`: alignment
padding bytes, the 32-bit sequence count, or one machine-word element. -/
inductive WireItem
  | pad : Nat → WireItem
  | u32 : Nat → WireItem
  | word : Nat → WireItem
deriving DecidableEq

/-- Byte length of one wire item. -/
def wireItemBytes (arch : Arch) : WireItem → Nat
  | .pad n => n
  | .u32 _ => sizeof_unsigned_int
  | .word _ => arch.wordSize

/-- Total byte length of a wire-item list. -/
def wireBytes (arch : Arch) (l : List WireItem) : Nat :=
  (l.map (wireItemBytes arch)).sum

/-- The values of the 32-bit count fields appearing in a wire-item list. -/
def wireCounts (l : List WireItem) : List Nat :=
  l.filterMap fun i => match i with | .u32 v => some v | _ => none

/-- The machine-word element values appearing in a wire-item list. -/
def wireWords (l : List WireItem) : List Nat :=
  l.filterMap fun i => match i with | .word v => some v | _ => none

/-- Result of `lttng_callstack_record`: the ring-buffer write cursor after
the call, and the emitted wire items in order. -/
structure RecordResult where
  pos : Nat
  out : List WireItem

/-- `lttng_callstack_record(field, ctx, chan)`: the write operation.
Re-selects the slot with `stack_trace_context`; on the skip branch it emits
a zero count between the two alignment paddings, otherwise it emits the
count (`nr_entries`, plus one when the slot is full), the `nr_entries`
element words from the start of the slot, and, when the slot is full, one
`ULONG_MAX` truncation-marker word. -/
def lttng_callstack_record (arch : Arch) (mode : CallstackMode) (d : Int)
    (st : CpuState) (pos : Nat) : RecordResult :=
  match stack_trace_context mode st.callstack_user_nesting d with
  | none =>
      let p1 := lib_ring_buffer_align pos arch.uintAlign
      let pos1 := pos + p1 + sizeof_unsigned_int
      let p2 := lib_ring_buffer_align pos1 arch.wordAlign
      { pos := pos1 + p2, out := [.pad p1, .u32 0, .pad p2] }
  | some idx =>
      let trace := st.dispatch idx
      let p1 := lib_ring_buffer_align pos arch.uintAlign
      let nr_seq_entries :=
        if trace.nr_entries = trace.max_entries then trace.nr_entries + 1
        else trace.nr_entries
      let pos1 := pos + p1 + sizeof_unsigned_int
      let p2 := lib_ring_buffer_align pos1 arch.wordAlign
      let pos2 := pos1 + p2
      let words := (List.range trace.nr_entries).map trace.entries
      let pos3 := pos2 + arch.wordSize * trace.nr_entries
      if trace.nr_entries = trace.max_entries then
        { pos := pos3 + arch.wordSize,
          out := [.pad p1, .u32 nr_seq_entries, .pad p2]
                 ++ words.map WireItem.word ++ [.word (ULONG_MAX arch)] }
      else
        { pos := pos3,
          out := [.pad p1, .u32 nr_seq_entries, .pad p2]
                 ++ words.map WireItem.word }

/-- Modelled from the spec: outcomes of the external helpers called by
`__lttng_add_callstack_generic`, whose bodies live outside this file
(`kallsyms_lookup_funcptr`, `lttng_append_context`, `lttng_find_context`,
and the allocations inside `field_data_create`). -/
structure AttachEnv where
  symbol_found : Bool
  append_ok : Bool
  name_exists : Bool
  fdata_ok : Bool
deriving DecidableEq

/-- Resources held by one attachment attempt: whether the field appended by
this call is still in the context set, and whether the per-field state
allocated by this call is still allocated. -/
structure AttachState where
  field_in_ctx : Bool
  fdata_alloc : Bool
deriving DecidableEq

/-- `lttng_remove_context_field`: takes the appended field back out of the
context set. -/
def lttng_remove_context_field (s : AttachState) : AttachState :=
  { s with field_in_ctx := false }

/-- `field_data_free`: releases the per-field state (a no-op on `NULL`). -/
def field_data_free (s : AttachState) : AttachState :=
  { s with fdata_alloc := false }

/-- Linux errno `EINVAL`. -/
def EINVAL : Int := 22
/-- Linux errno `ENOMEM`. -/
def ENOMEM : Int := 12
/-- Linux errno `EEXIST`. -/
def EEXIST : Int := 17

/-- `__lttng_add_callstack_generic(ctx, mode)`: the attachment path.
Mirrors the C control flow: symbol binding via `init_type`, then
`lttng_append_context`, then the duplicate-name check, then
`field_data_create`, with the `error_find` and `error_create` cleanup
labels.  Returns the C return value together with the resources still held
when the call returns. -/
def __lttng_add_callstack_generic (env : AttachEnv) : Int × AttachState :=
  let s : AttachState := ⟨false, false⟩
  if env.symbol_found = false then (-EINVAL, s)
  else if env.append_ok = false then (-ENOMEM, s)
  else
    let s := { s with field_in_ctx := true }
    if env.name_exists then
      (-EEXIST, lttng_remove_context_field s)
    else if env.fdata_ok = false then
      (-ENOMEM, lttng_remove_context_field (field_data_free s))
    else
      (0, { s with fdata_alloc := true })

/-- Modelled from the spec: the numeric type selector accepted by
`lttng_add_callstack_to_ctx`.  The selector constants
(`LTTNG_KERNEL_CONTEXT_CALLSTACK_KERNEL`, `LTTNG_KERNEL_CONTEXT_CALLSTACK_USER`)
are declared in a header outside this file, so the selector is modelled as
the three-way distinction the entrypoint's `switch` makes. -/
inductive CallstackSelector
  | sel_kernel
  | sel_user
  | sel_unsupported
deriving DecidableEq

/-- `lttng_add_callstack_to_ctx(ctx, type)`: the exported entrypoint.
`config_x86` models `CONFIG_X86`: without it the user-stack `case` label is
compiled out and the user selector falls through to `default`. -/
def lttng_add_callstack_to_ctx (config_x86 : Bool) (env : AttachEnv)
    (sel : CallstackSelector) : Int × AttachState :=
  match sel with
  | .sel_kernel => __lttng_add_callstack_generic env
  | .sel_user =>
      if config_x86 then __lttng_add_callstack_generic env
      else (-EINVAL, ⟨false, false⟩)
  | .sel_unsupported => (-EINVAL, ⟨false, false⟩)

/-- The guard counter is unchanged across `lttng_callstack_get_size`: the
user-mode increment is paired with a decrement, and the kernel mode and the
skip branch never touch it. -/
theorem get_size_nesting_eq (arch : Arch) (save : StackTrace → StackTrace)
    (mode : CallstackMode) (d : Int) (st : CpuState) (offset : Nat) :
    (lttng_callstack_get_size arch save mode d st offset).state.callstack_user_nesting
      = st.callstack_user_nesting := by
  unfold lttng_callstack_get_size
  cases h : stack_trace_context mode st.callstack_user_nesting d with
  | none => rfl
  | some idx =>
      simp only [callstack_user_nesting_during]
      cases hm : mode <;> simp [hm]

/-- Slot selection is unchanged across `lttng_callstack_get_size`: the
record step, run on the post-measure state with the same nesting depth,
chooses the same slot. -/
theorem get_size_context_eq (arch : Arch) (save : StackTrace → StackTrace)
    (mode : CallstackMode) (d : Int) (st : CpuState) (offset : Nat) :
    stack_trace_context mode
      (lttng_callstack_get_size arch save mode d st offset).state.callstack_user_nesting d
      = stack_trace_context mode st.callstack_user_nesting d := by
  rw [get_size_nesting_eq]

/-- Byte length of a run of machine-word elements. -/
theorem wireBytes_word_map (arch : Arch) (l : List Nat) :
    ((l.map WireItem.word).map (wireItemBytes arch)).sum
      = arch.wordSize * l.length := by
  induction l with
  | nil => simp
  | cons a l ih =>
      simp only [List.map_cons, List.sum_cons, wireItemBytes, ih,
        List.length_cons, Nat.mul_succ]
      omega

/-- C1: for every event, the bytes emitted by `lttng_callstack_record`
equal the byte count returned by the preceding `lttng_callstack_get_size`
at the same offset, when the record step runs on the state the measure step
left behind (the per-CPU slot unchanged in between); the write cursor
advances by exactly that count. -/
theorem callstack_measure_record_byte_agreement (arch : Arch)
    (save : StackTrace → StackTrace) (mode : CallstackMode) (d : Int)
    (st : CpuState) (offset : Nat) :
    wireBytes arch (lttng_callstack_record arch mode d
        (lttng_callstack_get_size arch save mode d st offset).state offset).out
      = (lttng_callstack_get_size arch save mode d st offset).size
    ∧ (lttng_callstack_record arch mode d
        (lttng_callstack_get_size arch save mode d st offset).state offset).pos
      = offset + (lttng_callstack_get_size arch save mode d st offset).size := by
  have hn : (if mode = CallstackMode.CALLSTACK_USER then
        callstack_user_nesting_during mode st.callstack_user_nesting - 1
      else callstack_user_nesting_during mode st.callstack_user_nesting)
      = st.callstack_user_nesting := by
    cases mode <;> simp [callstack_user_nesting_during]
  cases h : stack_trace_context mode st.callstack_user_nesting d with
  | none =>
      simp only [lttng_callstack_get_size, lttng_callstack_record, h, hn]
      simp only [wireBytes, wireItemBytes, List.map_cons, List.map_nil,
        List.sum_cons, List.sum_nil]
      omega
  | some idx =>
      simp only [lttng_callstack_get_size, lttng_callstack_record, h, hn]
      set t3 := stripDelim arch (save { st.dispatch idx with nr_entries := 0 })
        with ht3
      simp only [if_true]
      by_cases hfull : t3.nr_entries = t3.max_entries
      · simp only [hfull, eq_self_iff_true, if_true, wireBytes,
          List.map_append, List.sum_append, List.map_cons, List.sum_cons,
          List.map_nil, List.sum_nil, wireItemBytes]
        rw [wireBytes_word_map]
        simp only [List.length_map, List.length_range]
        constructor <;> omega
      · simp only [hfull, if_neg hfull, if_false, wireBytes,
          List.map_append, List.sum_append, List.map_cons, List.sum_cons,
          List.map_nil, List.sum_nil, wireItemBytes]
        rw [wireBytes_word_map]
        simp only [List.length_map, List.length_range]
        constructor <;> omega


/-- A run of machine-word elements carries no 32-bit count fields. -/
theorem wireCounts_word_map (l : List Nat) :
    wireCounts (l.map WireItem.word) = [] := by
  induction l with
  | nil => rfl
  | cons a l ih =>
      simp only [List.map_cons, wireCounts, List.filterMap_cons]
      exact ih

/-- Extracting the words of a run of machine-word elements gives the run
back. -/
theorem wireWords_word_map (l : List Nat) :
    wireWords (l.map WireItem.word) = l := by
  induction l with
  | nil => rfl
  | cons a l ih =>
      simp only [List.map_cons, wireWords, List.filterMap_cons]
      exact congrArg (a :: ·) ih

/-- C2: on the capture branch, when the slot (post-stripping) holds exactly
`max_entries` frames, `lttng_callstack_record` writes a count prefix of
`nr_entries + 1` and appends one extra word equal to `ULONG_MAX`; when it
holds fewer, the count prefix equals `nr_entries` and the element words are
exactly the `nr_entries` captured frames, with no marker. -/
theorem callstack_count_prefix_and_marker (arch : Arch) (mode : CallstackMode)
    (d : Int) (st : CpuState) (pos : Nat) (idx : Int)
    (h : stack_trace_context mode st.callstack_user_nesting d = some idx) :
    ((st.dispatch idx).nr_entries = (st.dispatch idx).max_entries →
      wireCounts (lttng_callstack_record arch mode d st pos).out
        = [(st.dispatch idx).nr_entries + 1]
      ∧ wireWords (lttng_callstack_record arch mode d st pos).out
        = (List.range (st.dispatch idx).nr_entries).map (st.dispatch idx).entries
          ++ [ULONG_MAX arch])
    ∧ ((st.dispatch idx).nr_entries < (st.dispatch idx).max_entries →
      wireCounts (lttng_callstack_record arch mode d st pos).out
        = [(st.dispatch idx).nr_entries]
      ∧ wireWords (lttng_callstack_record arch mode d st pos).out
        = (List.range (st.dispatch idx).nr_entries).map (st.dispatch idx).entries) := by
  constructor
  · intro hfull
    simp only [lttng_callstack_record, h, hfull, eq_self_iff_true, if_true]
    constructor
    · simp [wireCounts, List.filterMap_append, List.filterMap_cons,
        wireCounts_word_map]
    · simp only [wireWords, List.filterMap_append, List.filterMap_cons,
        List.filterMap_nil, hfull]
      exact congrArg (· ++ [ULONG_MAX arch]) (wireWords_word_map _)
  · intro hlt
    have hne : (st.dispatch idx).nr_entries ≠ (st.dispatch idx).max_entries :=
      Nat.ne_of_lt hlt
    simp only [lttng_callstack_record, h, hne, if_false]
    constructor
    · simp [wireCounts, List.filterMap_append, List.filterMap_cons,
        wireCounts_word_map, hne]
    · simp only [wireWords, List.filterMap_append, List.filterMap_cons,
        List.filterMap_nil, hne]
      exact wireWords_word_map _

/-- C3: in `lttng_callstack_get_size`, after the unwinder returns, the slot
length is decremented by exactly one when the trace is nonempty and its
last entry is `ULONG_MAX`, and is left unchanged by this step otherwise;
the entry buffer and the capacity are untouched either way. -/
theorem callstack_sentinel_normalization (arch : Arch)
    (save : StackTrace → StackTrace) (mode : CallstackMode) (d : Int)
    (st : CpuState) (offset : Nat) (idx : Int)
    (h : stack_trace_context mode st.callstack_user_nesting d = some idx) :
    ((lttng_callstack_get_size arch save mode d st offset).state.dispatch idx).nr_entries
      = (if 0 < (save { st.dispatch idx with nr_entries := 0 }).nr_entries
            ∧ (save { st.dispatch idx with nr_entries := 0 }).entries
                ((save { st.dispatch idx with nr_entries := 0 }).nr_entries - 1)
              = ULONG_MAX arch
         then (save { st.dispatch idx with nr_entries := 0 }).nr_entries - 1
         else (save { st.dispatch idx with nr_entries := 0 }).nr_entries)
    ∧ ((lttng_callstack_get_size arch save mode d st offset).state.dispatch idx).entries
      = (save { st.dispatch idx with nr_entries := 0 }).entries
    ∧ ((lttng_callstack_get_size arch save mode d st offset).state.dispatch idx).max_entries
      = (save { st.dispatch idx with nr_entries := 0 }).max_entries := by
  simp only [lttng_callstack_get_size, h, if_true]
  unfold stripDelim
  split
  · exact ⟨by simp_all, rfl, rfl⟩
  · exact ⟨by simp_all, rfl, rfl⟩

/-- C4: when `stack_trace_context` yields no slot (slot unavailable or the
user-stack guard forbids capture), `lttng_callstack_get_size` returns
exactly the empty-sequence size — padding to `unsigned int` alignment, plus
`sizeof(unsigned int)` bytes, plus padding to machine-word alignment — and
does so for every unwinder (no unwinder call is made) and without touching
any state; on the same branch `lttng_callstack_record` emits a count prefix
of 0 and no element words. -/
theorem callstack_skip_branch (arch : Arch) (save : StackTrace → StackTrace)
    (mode : CallstackMode) (d : Int) (st : CpuState) (offset : Nat)
    (h : stack_trace_context mode st.callstack_user_nesting d = none) :
    (lttng_callstack_get_size arch save mode d st offset).size
      = lib_ring_buffer_align offset arch.uintAlign + sizeof_unsigned_int
        + lib_ring_buffer_align
            (offset + lib_ring_buffer_align offset arch.uintAlign
              + sizeof_unsigned_int) arch.wordAlign
    ∧ (∀ save2 : StackTrace → StackTrace,
        lttng_callstack_get_size arch save2 mode d st offset
          = lttng_callstack_get_size arch save mode d st offset)
    ∧ (lttng_callstack_get_size arch save mode d st offset).state = st
    ∧ wireCounts (lttng_callstack_record arch mode d st offset).out = [0]
    ∧ wireWords (lttng_callstack_record arch mode d st offset).out = [] := by
  refine ⟨?_, ?_, ?_, ?_, ?_⟩
  · simp only [lttng_callstack_get_size, h]
    omega
  · intro save2
    simp only [lttng_callstack_get_size, h]
  · simp only [lttng_callstack_get_size, h]
  · simp [lttng_callstack_record, h, wireCounts, List.filterMap_cons]
  · simp [lttng_callstack_record, h, wireWords, List.filterMap_cons]

/-- C5: under the emission-path invariant `d ≥ 1`, slot selection returns
no slot exactly when the field is in user mode with the guard at least 1,
or when `d - 1 ≥ RING_BUFFER_MAX_NESTING`; any returned slot index equals
`d - 1` and lies in `[0, RING_BUFFER_MAX_NESTING)`. -/
theorem stack_trace_context_selection (mode : CallstackMode) (n d : Int)
    (hd : 1 ≤ d) :
    (stack_trace_context mode n d = none ↔
      (mode = CallstackMode.CALLSTACK_USER ∧ 1 ≤ n)
      ∨ (RING_BUFFER_MAX_NESTING : Int) ≤ d - 1)
    ∧ (∀ i, stack_trace_context mode n d = some i →
        i = d - 1 ∧ 0 ≤ i ∧ i < (RING_BUFFER_MAX_NESTING : Int)) := by
  unfold stack_trace_context
  by_cases hg : mode = CallstackMode.CALLSTACK_USER ∧ n ≥ 1
  · simp only [hg, if_true]
    constructor
    · simp [hg]
    · intro i hi
      exact absurd hi (by simp)
  · simp only [hg, if_false]
    by_cases hov : d - 1 ≥ (RING_BUFFER_MAX_NESTING : Int)
    · simp only [hov, if_true]
      constructor
      · exact iff_of_true trivial (Or.inr trivial)
      · intro i hi
        exact absurd hi (by simp)
    · simp only [hov, if_false]
      constructor
      · simp only [ge_iff_le] at hg hov
        simp [hg, hov]
      · intro i hi
        have : i = d - 1 := by simpa using hi.symm
        subst this
        refine ⟨rfl, by omega, by omega⟩

/-- C6: across every `lttng_callstack_get_size` invocation, on either mode
and either branch, the per-CPU user-unwind nesting counter returns to its
pre-call value, and, starting from a non-negative value, it stays
non-negative both during the unwinder call and after the invocation. -/
theorem callstack_user_nesting_balanced (arch : Arch)
    (save : StackTrace → StackTrace) (mode : CallstackMode) (d : Int)
    (st : CpuState) (offset : Nat) (h : 0 ≤ st.callstack_user_nesting) :
    (lttng_callstack_get_size arch save mode d st offset).state.callstack_user_nesting
      = st.callstack_user_nesting
    ∧ 0 ≤ callstack_user_nesting_during mode st.callstack_user_nesting
    ∧ 0 ≤ (lttng_callstack_get_size arch save mode d st offset).state.callstack_user_nesting := by
  have heq := get_size_nesting_eq arch save mode d st offset
  refine ⟨heq, ?_, heq ▸ h⟩
  unfold callstack_user_nesting_during
  split <;> omega

/-- C7: the attachment entrypoint returns 0 on success, `-EINVAL` when the
unwinder symbol lookup fails or the type selector is unsupported, `-ENOMEM`
when an allocation fails, and `-EEXIST` when a field with the mode's
display name already exists; on every error return the field appended
during the call has been removed from the context set and the per-field
state has been freed. -/
theorem callstack_attach_return_codes (config_x86 : Bool) (env : AttachEnv)
    (sel : CallstackSelector) :
    (((lttng_add_callstack_to_ctx config_x86 env sel).1 ≠ 0 →
        (lttng_add_callstack_to_ctx config_x86 env sel).2.field_in_ctx = false
        ∧ (lttng_add_callstack_to_ctx config_x86 env sel).2.fdata_alloc = false)
    ∧ ((sel = CallstackSelector.sel_unsupported
        ∨ (sel = CallstackSelector.sel_user ∧ config_x86 = false)) →
        (lttng_add_callstack_to_ctx config_x86 env sel).1 = -EINVAL))
    ∧ ((sel = CallstackSelector.sel_kernel
        ∨ (sel = CallstackSelector.sel_user ∧ config_x86 = true)) →
        ((env.symbol_found = false →
            (lttng_add_callstack_to_ctx config_x86 env sel).1 = -EINVAL)
        ∧ (env.symbol_found = true → env.append_ok = false →
            (lttng_add_callstack_to_ctx config_x86 env sel).1 = -ENOMEM)
        ∧ (env.symbol_found = true → env.append_ok = true →
            env.name_exists = true →
            (lttng_add_callstack_to_ctx config_x86 env sel).1 = -EEXIST)
        ∧ (env.symbol_found = true → env.append_ok = true →
            env.name_exists = false → env.fdata_ok = false →
            (lttng_add_callstack_to_ctx config_x86 env sel).1 = -ENOMEM)
        ∧ (env.symbol_found = true → env.append_ok = true →
            env.name_exists = false → env.fdata_ok = true →
            (lttng_add_callstack_to_ctx config_x86 env sel).1 = 0
            ∧ (lttng_add_callstack_to_ctx config_x86 env sel).2.field_in_ctx = true))) := by
  rcases env with ⟨sf, ao, ne, fo⟩
  cases sel <;> cases config_x86 <;> cases sf <;> cases ao <;> cases ne <;>
    cases fo <;>
    simp [lttng_add_callstack_to_ctx, __lttng_add_callstack_generic,
      lttng_remove_context_field, field_data_free, EINVAL, ENOMEM, EEXIST]

/-- The user-mode decrement restores the guard to its pre-increment value,
stated in the form the `lttng_callstack_get_size` body produces it in. -/
theorem get_size_nAfter_eq (mode : CallstackMode) (n : Int) :
    (if mode = CallstackMode.CALLSTACK_USER then
        callstack_user_nesting_during mode n - 1
      else callstack_user_nesting_during mode n) = n := by
  cases mode <;> simp [callstack_user_nesting_during]

/-- After `lttng_callstack_get_size` runs on the capture branch, the chosen
slot holds the stripped unwinder result. -/
theorem get_size_dispatch_eq (arch : Arch) (save : StackTrace → StackTrace)
    (mode : CallstackMode) (d : Int) (st : CpuState) (offset : Nat) (idx : Int)
    (h : stack_trace_context mode st.callstack_user_nesting d = some idx) :
    (lttng_callstack_get_size arch save mode d st offset).state.dispatch idx
      = stripDelim arch (save { st.dispatch idx with nr_entries := 0 }) := by
  simp only [lttng_callstack_get_size, h, if_true]

/-- On the capture branch, the record output carries one count field —
`nr_entries`, incremented when the slot is full — and the `nr_entries`
element words, followed by the `ULONG_MAX` marker exactly when the slot is
full. -/
theorem record_out_characterization (arch : Arch) (mode : CallstackMode)
    (d : Int) (st : CpuState) (pos : Nat) (idx : Int)
    (h : stack_trace_context mode st.callstack_user_nesting d = some idx) :
    wireCounts (lttng_callstack_record arch mode d st pos).out
      = [if (st.dispatch idx).nr_entries = (st.dispatch idx).max_entries
         then (st.dispatch idx).nr_entries + 1 else (st.dispatch idx).nr_entries]
    ∧ wireWords (lttng_callstack_record arch mode d st pos).out
      = (List.range (st.dispatch idx).nr_entries).map (st.dispatch idx).entries
        ++ (if (st.dispatch idx).nr_entries = (st.dispatch idx).max_entries
            then [ULONG_MAX arch] else []) := by
  by_cases hfull : (st.dispatch idx).nr_entries = (st.dispatch idx).max_entries
  · simp only [lttng_callstack_record, h, hfull, eq_self_iff_true, if_true]
    constructor
    · simp [wireCounts, List.filterMap_append, List.filterMap_cons,
        wireCounts_word_map]
    · simp only [wireWords, List.filterMap_append, List.filterMap_cons,
        List.filterMap_nil, hfull]
      exact congrArg (· ++ [ULONG_MAX arch]) (wireWords_word_map _)
  · simp only [lttng_callstack_record, h, hfull, if_false]
    constructor
    · simp [wireCounts, List.filterMap_append, List.filterMap_cons,
        wireCounts_word_map, hfull]
    · simp only [wireWords, List.filterMap_append, List.filterMap_cons,
        List.filterMap_nil, hfull]
      rw [List.append_nil]
      exact wireWords_word_map _

/-- A concrete unwinder result used to test the wire encoding: two frames,
the final one being the `ULONG_MAX` natural-bottom sentinel. -/
def save_two_with_sentinel : StackTrace → StackTrace := fun t =>
  { entries := fun i => if i = 0 then 10 else ULONG_MAX arch64,
    nr_entries := 2,
    max_entries := t.max_entries }

/-- A fresh per-CPU state: guard at zero, every slot empty with capacity
`MAX_ENTRIES`. -/
def cpuState0 : CpuState :=
  { callstack_user_nesting := 0,
    dispatch := fun _ => { entries := fun _ => 0, nr_entries := 0,
                           max_entries := MAX_ENTRIES } }

/-- C8 counterexample: a backend result with `length > 0` whose last entry
equals `ULONG_MAX` (here two frames ending in the sentinel) does not
serialize to a count prefix of 0 with no element words: the count prefix is
1 and one element word is emitted. -/
theorem callstack_c8_counterexample :
    0 < (save_two_with_sentinel
          { cpuState0.dispatch 0 with nr_entries := 0 }).nr_entries
    ∧ (save_two_with_sentinel
          { cpuState0.dispatch 0 with nr_entries := 0 }).entries
        ((save_two_with_sentinel
          { cpuState0.dispatch 0 with nr_entries := 0 }).nr_entries - 1)
      = ULONG_MAX arch64
    ∧ wireCounts (lttng_callstack_record arch64 CallstackMode.CALLSTACK_KERNEL 1
        (lttng_callstack_get_size arch64 save_two_with_sentinel
          CallstackMode.CALLSTACK_KERNEL 1 cpuState0 0).state 0).out
      = [1]
    ∧ wireWords (lttng_callstack_record arch64 CallstackMode.CALLSTACK_KERNEL 1
        (lttng_callstack_get_size arch64 save_two_with_sentinel
          CallstackMode.CALLSTACK_KERNEL 1 cpuState0 0).state 0).out
      = [10] := by
  refine ⟨by decide, by decide, by decide, by decide⟩

/-- C8 amended: for every backend result with length 0 and for every
backend result with length 1 whose single entry equals `ULONG_MAX` (a bare
natural-bottom sentinel), provided the slot capacity is positive, the
serialized wire output is identical: two alignment paddings around a count
prefix of 0, with no element words. -/
theorem callstack_empty_and_bare_sentinel_identical (arch : Arch)
    (save : StackTrace → StackTrace) (mode : CallstackMode) (d : Int)
    (st : CpuState) (offset : Nat) (idx : Int)
    (h : stack_trace_context mode st.callstack_user_nesting d = some idx)
    (hmax : 0 < (save { st.dispatch idx with nr_entries := 0 }).max_entries)
    (hres : (save { st.dispatch idx with nr_entries := 0 }).nr_entries = 0
        ∨ ((save { st.dispatch idx with nr_entries := 0 }).nr_entries = 1
           ∧ (save { st.dispatch idx with nr_entries := 0 }).entries 0
             = ULONG_MAX arch)) :
    (lttng_callstack_record arch mode d
        (lttng_callstack_get_size arch save mode d st offset).state offset).out
      = [WireItem.pad (lib_ring_buffer_align offset arch.uintAlign),
         WireItem.u32 0,
         WireItem.pad (lib_ring_buffer_align
            (offset + lib_ring_buffer_align offset arch.uintAlign
              + sizeof_unsigned_int) arch.wordAlign)] := by
  have hctx : stack_trace_context mode
      (lttng_callstack_get_size arch save mode d st offset).state.callstack_user_nesting d
      = some idx := by
    rw [get_size_context_eq]
    exact h
  have hdis := get_size_dispatch_eq arch save mode d st offset idx h
  have hnr3 : (stripDelim arch
      (save { st.dispatch idx with nr_entries := 0 })).nr_entries = 0 := by
    rcases hres with h0 | ⟨h1, hMAX⟩
    · simp [stripDelim, h0]
    · simp [stripDelim, h1, hMAX]
  have hmax3 : (stripDelim arch
      (save { st.dispatch idx with nr_entries := 0 })).max_entries
      = (save { st.dispatch idx with nr_entries := 0 }).max_entries := by
    unfold stripDelim
    split <;> rfl
  have hne : ¬((stripDelim arch
      (save { st.dispatch idx with nr_entries := 0 })).nr_entries
      = (stripDelim arch
      (save { st.dispatch idx with nr_entries := 0 })).max_entries) := by
    rw [hnr3, hmax3]
    omega
  have hne0 : ¬(0 = (stripDelim arch
      (save { st.dispatch idx with nr_entries := 0 })).max_entries) := by
    rw [hmax3]
    omega
  simp only [lttng_callstack_record, hctx, hdis, hne, if_false, hnr3]
  simp [hne0]

/-- C9: sentinel stripping and the truncation marker are mutually exclusive
for one event.  If the backend fills the slot to exactly `MAX_ENTRIES`
frames and the final entry equals `ULONG_MAX`, the sentinel is stripped
first, so the emitted count prefix is `MAX_ENTRIES - 1` (127) and no marker
word is appended; and whenever the marker is appended (one more element
word than the stripped length), the backend returned exactly `max_entries`
frames with no trailing sentinel. -/
theorem callstack_strip_marker_exclusive (arch : Arch)
    (save : StackTrace → StackTrace) (mode : CallstackMode) (d : Int)
    (st : CpuState) (offset : Nat) (idx : Int)
    (h : stack_trace_context mode st.callstack_user_nesting d = some idx) :
    (((save { st.dispatch idx with nr_entries := 0 }).max_entries = MAX_ENTRIES →
      (save { st.dispatch idx with nr_entries := 0 }).nr_entries = MAX_ENTRIES →
      (save { st.dispatch idx with nr_entries := 0 }).entries (MAX_ENTRIES - 1)
        = ULONG_MAX arch →
      wireCounts (lttng_callstack_record arch mode d
          (lttng_callstack_get_size arch save mode d st offset).state offset).out
        = [MAX_ENTRIES - 1]
      ∧ wireWords (lttng_callstack_record arch mode d
          (lttng_callstack_get_size arch save mode d st offset).state offset).out
        = (List.range (MAX_ENTRIES - 1)).map
            (save { st.dispatch idx with nr_entries := 0 }).entries))
    ∧ ((save { st.dispatch idx with nr_entries := 0 }).nr_entries
          ≤ (save { st.dispatch idx with nr_entries := 0 }).max_entries →
       (wireWords (lttng_callstack_record arch mode d
          (lttng_callstack_get_size arch save mode d st offset).state offset).out).length
          = (stripDelim arch (save { st.dispatch idx with nr_entries := 0 })).nr_entries + 1 →
       (save { st.dispatch idx with nr_entries := 0 }).nr_entries
          = (save { st.dispatch idx with nr_entries := 0 }).max_entries
       ∧ ¬(0 < (save { st.dispatch idx with nr_entries := 0 }).nr_entries
           ∧ (save { st.dispatch idx with nr_entries := 0 }).entries
               ((save { st.dispatch idx with nr_entries := 0 }).nr_entries - 1)
             = ULONG_MAX arch)) := by
  have hctx : stack_trace_context mode
      (lttng_callstack_get_size arch save mode d st offset).state.callstack_user_nesting d
      = some idx := by
    rw [get_size_context_eq]
    exact h
  have hdis := get_size_dispatch_eq arch save mode d st offset idx h
  obtain ⟨hc, hw⟩ := record_out_characterization arch mode d
    (lttng_callstack_get_size arch save mode d st offset).state offset idx hctx
  rw [hdis] at hc hw
  have hmax3 : (stripDelim arch
      (save { st.dispatch idx with nr_entries := 0 })).max_entries
      = (save { st.dispatch idx with nr_entries := 0 }).max_entries := by
    unfold stripDelim
    split <;> rfl
  constructor
  · intro hm hn hs
    have hcond : 0 < (save { st.dispatch idx with nr_entries := 0 }).nr_entries
        ∧ (save { st.dispatch idx with nr_entries := 0 }).entries
            ((save { st.dispatch idx with nr_entries := 0 }).nr_entries - 1)
          = ULONG_MAX arch := by
      rw [hn]
      exact ⟨by decide, hs⟩
    have hnr3 : (stripDelim arch
        (save { st.dispatch idx with nr_entries := 0 })).nr_entries
        = MAX_ENTRIES - 1 := by
      unfold stripDelim
      rw [if_pos hcond, hn]
    have hent3 : (stripDelim arch
        (save { st.dispatch idx with nr_entries := 0 })).entries
        = (save { st.dispatch idx with nr_entries := 0 }).entries := by
      unfold stripDelim
      split <;> rfl
    simp only [hnr3, hent3, hmax3, hm] at hc hw
    have hne3 : ¬(MAX_ENTRIES - 1 = MAX_ENTRIES) := by decide
    rw [if_neg hne3] at hc
    rw [if_neg hne3, List.append_nil] at hw
    exact ⟨hc, hw⟩
  · intro hwf hlen
    rw [hw] at hlen
    by_cases hfull : (stripDelim arch
        (save { st.dispatch idx with nr_entries := 0 })).nr_entries
        = (stripDelim arch
        (save { st.dispatch idx with nr_entries := 0 })).max_entries
    · by_cases hcond : 0 < (save { st.dispatch idx with nr_entries := 0 }).nr_entries
          ∧ (save { st.dispatch idx with nr_entries := 0 }).entries
              ((save { st.dispatch idx with nr_entries := 0 }).nr_entries - 1)
            = ULONG_MAX arch
      · exfalso
        have hnr3 : (stripDelim arch
            (save { st.dispatch idx with nr_entries := 0 })).nr_entries
            = (save { st.dispatch idx with nr_entries := 0 }).nr_entries - 1 := by
          unfold stripDelim
          rw [if_pos hcond]
        rw [hnr3, hmax3] at hfull
        omega
      · have hnr3 : (stripDelim arch
            (save { st.dispatch idx with nr_entries := 0 })).nr_entries
            = (save { st.dispatch idx with nr_entries := 0 }).nr_entries := by
          unfold stripDelim
          rw [if_neg hcond]
        rw [hnr3, hmax3] at hfull
        exact ⟨hfull, hcond⟩
    · exfalso
      rw [if_neg hfull, List.append_nil, List.length_map,
        List.length_range] at hlen
      omega

/-- C10: the wire output of `lttng_callstack_record` depends only on the
chosen slot's first `nr_entries` words.  Two per-CPU states whose chosen
slots agree on `nr_entries`, `max_entries` and every entry below
`nr_entries` — but may hold arbitrary stale addresses beyond — produce
identical record output; and `lttng_callstack_get_size` depends on the
unwinder only through its value on the reset slot (`nr_entries` zeroed,
entry buffer left as it was). -/
theorem callstack_no_stale_address_leak (arch : Arch) (mode : CallstackMode)
    (d : Int) (st1 st2 : CpuState) (pos : Nat) (idx : Int)
    (hnest : st1.callstack_user_nesting = st2.callstack_user_nesting)
    (h : stack_trace_context mode st1.callstack_user_nesting d = some idx)
    (hnr : (st1.dispatch idx).nr_entries = (st2.dispatch idx).nr_entries)
    (hmax : (st1.dispatch idx).max_entries = (st2.dispatch idx).max_entries)
    (hent : ∀ j, j < (st1.dispatch idx).nr_entries →
        (st1.dispatch idx).entries j = (st2.dispatch idx).entries j) :
    lttng_callstack_record arch mode d st1 pos
      = lttng_callstack_record arch mode d st2 pos
    ∧ (∀ save1 save2 : StackTrace → StackTrace,
        save1 { st1.dispatch idx with nr_entries := 0 }
          = save2 { st1.dispatch idx with nr_entries := 0 } →
        ∀ offset, lttng_callstack_get_size arch save1 mode d st1 offset
          = lttng_callstack_get_size arch save2 mode d st1 offset) := by
  have h2 : stack_trace_context mode st2.callstack_user_nesting d = some idx := by
    rw [← hnest]
    exact h
  constructor
  · have hwords : List.map (st1.dispatch idx).entries
        (List.range (st2.dispatch idx).nr_entries)
        = List.map (st2.dispatch idx).entries
        (List.range (st2.dispatch idx).nr_entries) :=
      List.map_congr_left fun j hj =>
        hent j (hnr ▸ List.mem_range.mp hj)
    simp only [lttng_callstack_record, h, h2, hnr, hmax, hwords]
  · intro save1 save2 hsave offset
    simp only [lttng_callstack_get_size, h, hsave]

/-- A per-CPU state whose slots are full: two frames captured with capacity
two. -/
def cpuFull : CpuState :=
  { callstack_user_nesting := 0,
    dispatch := fun _ => { entries := fun i => i + 21, nr_entries := 2,
                           max_entries := 2 } }

/-- A per-CPU state with the user-nesting guard raised to 1. -/
def cpuGuard1 : CpuState :=
  { callstack_user_nesting := 1,
    dispatch := fun _ => { entries := fun _ => 0, nr_entries := 0,
                           max_entries := MAX_ENTRIES } }

/-- A concrete unwinder result consisting of a bare natural-bottom
sentinel: one frame equal to `ULONG_MAX`. -/
def save_bare_sentinel : StackTrace → StackTrace := fun t =>
  { entries := fun _ => ULONG_MAX arch64, nr_entries := 1,
    max_entries := t.max_entries }

/-- Two per-CPU states agreeing on the captured prefix of the chosen slot
but holding different stale addresses beyond it. -/
def cpuStale1 : CpuState :=
  { callstack_user_nesting := 0,
    dispatch := fun _ => { entries := fun i => if i < 2 then i + 5 else 111,
                           nr_entries := 2, max_entries := MAX_ENTRIES } }

/-- See `cpuStale1`: same captured prefix, different stale tail. -/
def cpuStale2 : CpuState :=
  { callstack_user_nesting := 0,
    dispatch := fun _ => { entries := fun i => if i < 2 then i + 5 else 222,
                           nr_entries := 2, max_entries := MAX_ENTRIES } }

/-- Witness for C2 at a concrete full slot. -/
theorem callstack_count_prefix_and_marker_witness :
    stack_trace_context CallstackMode.CALLSTACK_KERNEL
      cpuFull.callstack_user_nesting 1 = some 0
    ∧ (((cpuFull.dispatch 0).nr_entries = (cpuFull.dispatch 0).max_entries →
        wireCounts (lttng_callstack_record arch64
            CallstackMode.CALLSTACK_KERNEL 1 cpuFull 0).out
          = [(cpuFull.dispatch 0).nr_entries + 1]
        ∧ wireWords (lttng_callstack_record arch64
            CallstackMode.CALLSTACK_KERNEL 1 cpuFull 0).out
          = (List.range (cpuFull.dispatch 0).nr_entries).map
              (cpuFull.dispatch 0).entries ++ [ULONG_MAX arch64])
      ∧ ((cpuFull.dispatch 0).nr_entries < (cpuFull.dispatch 0).max_entries →
        wireCounts (lttng_callstack_record arch64
            CallstackMode.CALLSTACK_KERNEL 1 cpuFull 0).out
          = [(cpuFull.dispatch 0).nr_entries]
        ∧ wireWords (lttng_callstack_record arch64
            CallstackMode.CALLSTACK_KERNEL 1 cpuFull 0).out
          = (List.range (cpuFull.dispatch 0).nr_entries).map
              (cpuFull.dispatch 0).entries)) :=
  ⟨by decide, callstack_count_prefix_and_marker arch64
    CallstackMode.CALLSTACK_KERNEL 1 cpuFull 0 0 (by decide)⟩

/-- Witness for C3 at a concrete unwinder result ending in the sentinel. -/
theorem callstack_sentinel_normalization_witness :
    stack_trace_context CallstackMode.CALLSTACK_KERNEL
      cpuState0.callstack_user_nesting 1 = some 0
    ∧ (((lttng_callstack_get_size arch64 save_two_with_sentinel
          CallstackMode.CALLSTACK_KERNEL 1 cpuState0 0).state.dispatch 0).nr_entries
      = (if 0 < (save_two_with_sentinel
            { cpuState0.dispatch 0 with nr_entries := 0 }).nr_entries
            ∧ (save_two_with_sentinel
                { cpuState0.dispatch 0 with nr_entries := 0 }).entries
                ((save_two_with_sentinel
                  { cpuState0.dispatch 0 with nr_entries := 0 }).nr_entries - 1)
              = ULONG_MAX arch64
         then (save_two_with_sentinel
            { cpuState0.dispatch 0 with nr_entries := 0 }).nr_entries - 1
         else (save_two_with_sentinel
            { cpuState0.dispatch 0 with nr_entries := 0 }).nr_entries)
    ∧ ((lttng_callstack_get_size arch64 save_two_with_sentinel
          CallstackMode.CALLSTACK_KERNEL 1 cpuState0 0).state.dispatch 0).entries
      = (save_two_with_sentinel
          { cpuState0.dispatch 0 with nr_entries := 0 }).entries
    ∧ ((lttng_callstack_get_size arch64 save_two_with_sentinel
          CallstackMode.CALLSTACK_KERNEL 1 cpuState0 0).state.dispatch 0).max_entries
      = (save_two_with_sentinel
          { cpuState0.dispatch 0 with nr_entries := 0 }).max_entries) :=
  ⟨by decide, callstack_sentinel_normalization arch64 save_two_with_sentinel
    CallstackMode.CALLSTACK_KERNEL 1 cpuState0 0 0 (by decide)⟩

/-- Witness for C4 at a concrete skip branch: user mode with the guard
raised. -/
theorem callstack_skip_branch_witness :
    stack_trace_context CallstackMode.CALLSTACK_USER
      cpuGuard1.callstack_user_nesting 1 = none
    ∧ ((lttng_callstack_get_size arch64 save_two_with_sentinel
          CallstackMode.CALLSTACK_USER 1 cpuGuard1 3).size
        = lib_ring_buffer_align 3 arch64.uintAlign + sizeof_unsigned_int
          + lib_ring_buffer_align
              (3 + lib_ring_buffer_align 3 arch64.uintAlign
                + sizeof_unsigned_int) arch64.wordAlign
      ∧ (∀ save2 : StackTrace → StackTrace,
          lttng_callstack_get_size arch64 save2
            CallstackMode.CALLSTACK_USER 1 cpuGuard1 3
            = lttng_callstack_get_size arch64 save_two_with_sentinel
                CallstackMode.CALLSTACK_USER 1 cpuGuard1 3)
      ∧ (lttng_callstack_get_size arch64 save_two_with_sentinel
            CallstackMode.CALLSTACK_USER 1 cpuGuard1 3).state = cpuGuard1
      ∧ wireCounts (lttng_callstack_record arch64
            CallstackMode.CALLSTACK_USER 1 cpuGuard1 3).out = [0]
      ∧ wireWords (lttng_callstack_record arch64
            CallstackMode.CALLSTACK_USER 1 cpuGuard1 3).out = []) :=
  ⟨by decide, callstack_skip_branch arch64 save_two_with_sentinel
    CallstackMode.CALLSTACK_USER 1 cpuGuard1 3 (by decide)⟩

/-- Witness for C5 at depth 1 in kernel mode. -/
theorem stack_trace_context_selection_witness :
    (1 : Int) ≤ 1
    ∧ ((stack_trace_context CallstackMode.CALLSTACK_KERNEL 0 1 = none ↔
        (CallstackMode.CALLSTACK_KERNEL = CallstackMode.CALLSTACK_USER ∧ (1 : Int) ≤ 0)
        ∨ (RING_BUFFER_MAX_NESTING : Int) ≤ 1 - 1)
      ∧ (∀ i, stack_trace_context CallstackMode.CALLSTACK_KERNEL 0 1 = some i →
          i = 1 - 1 ∧ 0 ≤ i ∧ i < (RING_BUFFER_MAX_NESTING : Int))) :=
  ⟨by decide, stack_trace_context_selection CallstackMode.CALLSTACK_KERNEL 0 1
    (by decide)⟩

/-- Witness for C6 on the user-mode capture branch from a zero guard. -/
theorem callstack_user_nesting_balanced_witness :
    (0 : Int) ≤ cpuState0.callstack_user_nesting
    ∧ ((lttng_callstack_get_size arch64 save_two_with_sentinel
          CallstackMode.CALLSTACK_USER 1 cpuState0 0).state.callstack_user_nesting
        = cpuState0.callstack_user_nesting
      ∧ 0 ≤ callstack_user_nesting_during CallstackMode.CALLSTACK_USER
          cpuState0.callstack_user_nesting
      ∧ 0 ≤ (lttng_callstack_get_size arch64 save_two_with_sentinel
          CallstackMode.CALLSTACK_USER 1 cpuState0 0).state.callstack_user_nesting) :=
  ⟨by decide, callstack_user_nesting_balanced arch64 save_two_with_sentinel
    CallstackMode.CALLSTACK_USER 1 cpuState0 0 (by decide)⟩

/-- Witness for C7: a duplicate field on the kernel selector yields
`-EEXIST`. -/
theorem callstack_attach_return_codes_witness :
    (lttng_add_callstack_to_ctx true
      { symbol_found := true, append_ok := true, name_exists := true,
        fdata_ok := true } CallstackSelector.sel_kernel).1 = -EEXIST :=
  ((callstack_attach_return_codes true
      { symbol_found := true, append_ok := true, name_exists := true,
        fdata_ok := true } CallstackSelector.sel_kernel).2
    (Or.inl rfl)).2.2.1 rfl rfl rfl

/-- Witness for the amended C8 at a bare-sentinel backend result. -/
theorem callstack_empty_and_bare_sentinel_identical_witness :
    stack_trace_context CallstackMode.CALLSTACK_KERNEL
      cpuState0.callstack_user_nesting 1 = some 0
    ∧ 0 < (save_bare_sentinel
        { cpuState0.dispatch 0 with nr_entries := 0 }).max_entries
    ∧ ((save_bare_sentinel
          { cpuState0.dispatch 0 with nr_entries := 0 }).nr_entries = 0
      ∨ ((save_bare_sentinel
            { cpuState0.dispatch 0 with nr_entries := 0 }).nr_entries = 1
         ∧ (save_bare_sentinel
            { cpuState0.dispatch 0 with nr_entries := 0 }).entries 0
           = ULONG_MAX arch64))
    ∧ (lttng_callstack_record arch64 CallstackMode.CALLSTACK_KERNEL 1
        (lttng_callstack_get_size arch64 save_bare_sentinel
          CallstackMode.CALLSTACK_KERNEL 1 cpuState0 0).state 0).out
      = [WireItem.pad (lib_ring_buffer_align 0 arch64.uintAlign),
         WireItem.u32 0,
         WireItem.pad (lib_ring_buffer_align
            (0 + lib_ring_buffer_align 0 arch64.uintAlign
              + sizeof_unsigned_int) arch64.wordAlign)] :=
  ⟨by decide, by decide, by decide,
    callstack_empty_and_bare_sentinel_identical arch64 save_bare_sentinel
      CallstackMode.CALLSTACK_KERNEL 1 cpuState0 0 0 (by decide) (by decide)
      (by decide)⟩

/-- Witness for C9 at a two-frame sentinel-terminated backend result. -/
theorem callstack_strip_marker_exclusive_witness :
    stack_trace_context CallstackMode.CALLSTACK_KERNEL
      cpuState0.callstack_user_nesting 1 = some 0
    ∧ ((((save_two_with_sentinel
          { cpuState0.dispatch 0 with nr_entries := 0 }).max_entries = MAX_ENTRIES →
      (save_two_with_sentinel
          { cpuState0.dispatch 0 with nr_entries := 0 }).nr_entries = MAX_ENTRIES →
      (save_two_with_sentinel
          { cpuState0.dispatch 0 with nr_entries := 0 }).entries (MAX_ENTRIES - 1)
        = ULONG_MAX arch64 →
      wireCounts (lttng_callstack_record arch64 CallstackMode.CALLSTACK_KERNEL 1
          (lttng_callstack_get_size arch64 save_two_with_sentinel
            CallstackMode.CALLSTACK_KERNEL 1 cpuState0 0).state 0).out
        = [MAX_ENTRIES - 1]
      ∧ wireWords (lttng_callstack_record arch64 CallstackMode.CALLSTACK_KERNEL 1
          (lttng_callstack_get_size arch64 save_two_with_sentinel
            CallstackMode.CALLSTACK_KERNEL 1 cpuState0 0).state 0).out
        = (List.range (MAX_ENTRIES - 1)).map
            (save_two_with_sentinel
              { cpuState0.dispatch 0 with nr_entries := 0 }).entries))
    ∧ ((save_two_with_sentinel
          { cpuState0.dispatch 0 with nr_entries := 0 }).nr_entries
          ≤ (save_two_with_sentinel
          { cpuState0.dispatch 0 with nr_entries := 0 }).max_entries →
       (wireWords (lttng_callstack_record arch64 CallstackMode.CALLSTACK_KERNEL 1
          (lttng_callstack_get_size arch64 save_two_with_sentinel
            CallstackMode.CALLSTACK_KERNEL 1 cpuState0 0).state 0).out).length
          = (stripDelim arch64 (save_two_with_sentinel
              { cpuState0.dispatch 0 with nr_entries := 0 })).nr_entries + 1 →
       (save_two_with_sentinel
          { cpuState0.dispatch 0 with nr_entries := 0 }).nr_entries
          = (save_two_with_sentinel
          { cpuState0.dispatch 0 with nr_entries := 0 }).max_entries
       ∧ ¬(0 < (save_two_with_sentinel
            { cpuState0.dispatch 0 with nr_entries := 0 }).nr_entries
           ∧ (save_two_with_sentinel
              { cpuState0.dispatch 0 with nr_entries := 0 }).entries
               ((save_two_with_sentinel
                { cpuState0.dispatch 0 with nr_entries := 0 }).nr_entries - 1)
             = ULONG_MAX arch64))) :=
  ⟨by decide, callstack_strip_marker_exclusive arch64 save_two_with_sentinel
    CallstackMode.CALLSTACK_KERNEL 1 cpuState0 0 0 (by decide)⟩

/-- Witness for C10 at two states with identical captured prefixes and
different stale tails. -/
theorem callstack_no_stale_address_leak_witness :
    cpuStale1.callstack_user_nesting = cpuStale2.callstack_user_nesting
    ∧ stack_trace_context CallstackMode.CALLSTACK_KERNEL
        cpuStale1.callstack_user_nesting 1 = some 0
    ∧ (cpuStale1.dispatch 0).nr_entries = (cpuStale2.dispatch 0).nr_entries
    ∧ (cpuStale1.dispatch 0).max_entries = (cpuStale2.dispatch 0).max_entries
    ∧ (∀ j, j < (cpuStale1.dispatch 0).nr_entries →
        (cpuStale1.dispatch 0).entries j = (cpuStale2.dispatch 0).entries j)
    ∧ (lttng_callstack_record arch64 CallstackMode.CALLSTACK_KERNEL 1 cpuStale1 7
        = lttng_callstack_record arch64 CallstackMode.CALLSTACK_KERNEL 1 cpuStale2 7
      ∧ (∀ save1 save2 : StackTrace → StackTrace,
          save1 { cpuStale1.dispatch 0 with nr_entries := 0 }
            = save2 { cpuStale1.dispatch 0 with nr_entries := 0 } →
          ∀ offset, lttng_callstack_get_size arch64 save1
              CallstackMode.CALLSTACK_KERNEL 1 cpuStale1 offset
            = lttng_callstack_get_size arch64 save2
              CallstackMode.CALLSTACK_KERNEL 1 cpuStale1 offset)) :=
  ⟨by decide, by decide, by decide, by decide, by decide,
    callstack_no_stale_address_leak arch64 CallstackMode.CALLSTACK_KERNEL 1
      cpuStale1 cpuStale2 7 0 (by decide) (by decide) (by decide) (by decide)
      (by decide)⟩
